import Mathlib

/-!
Shallow embedding of the List-Response Paginator of
`src/shared/transformers/pagination.transformer.ts`
(class `PaginationTransformer`, static method `toPaginationResponseDto`,
private helper `isClassConstructor`), together with a model of the pieces
of the JavaScript runtime and of the external `class-transformer` library
(`plainToInstance`) that the method delegates to.

Conventions of the embedding:
- JavaScript objects are finite association lists of string keys to
  primitive values (`Record`).
- The numeric arguments (`totalItems`, `skip`, `take`) are integers
  (`Int`); the spec and all claims restrict attention to integer inputs,
  for which JavaScript `Math.floor(a / b)` is floor division and
  `Math.ceil(a / b)` is ceiling division.
- Thrown JavaScript errors become `Except.error`.  Errors thrown by the
  validation code of the method itself are tagged `invalidArgument`
  (carrying the exact message string built by the source), while errors
  thrown inside caller-supplied transform code or the projection
  mechanism are tagged `transformFailure` (carrying the caller's error
  unchanged).
-/

/-- Primitive JavaScript values appearing as record fields. -/
inductive JsValue : Type where
  | num (n : Int)
  | str (s : String)
  | bool (b : Bool)
  | null
deriving DecidableEq, Repr

/-- A JavaScript object: an association list from field names to values. -/
abbrev Record : Type := List (String × JsValue)

/-- Output envelope, mirroring `PaginationResponseDto<T>` as assembled at
lines 108-116 of `pagination.transformer.ts`. -/
structure PaginationResponseDto (α : Type) : Type where
  data : List α
  totalItems : Int
  totalPages : Int
  currentPage : Int
  itemsPerPage : Int
  hasNextPage : Bool
  hasPreviousPage : Bool
deriving DecidableEq

/-- Provenance-tagged error for a `paginate` call: either a validation
error thrown by the method itself (`new Error(msg)` in lines 68-79 of the
source) or an error propagating out of caller-supplied transform code or
the projection mechanism. -/
inductive PgError : Type where
  | invalidArgument (msg : String)
  | transformFailure (msg : String)
deriving DecidableEq, Repr

instance {ε α : Type} [DecidableEq ε] [DecidableEq α] : DecidableEq (Except ε α) :=
  fun a b =>
    match a, b with
    | Except.error x, Except.error y =>
      if h : x = y then isTrue (by rw [h])
      else isFalse (fun hc => h (by injection hc))
    | Except.error _, Except.ok _ => isFalse (fun hc => Except.noConfusion hc)
    | Except.ok _, Except.error _ => isFalse (fun hc => Except.noConfusion hc)
    | Except.ok x, Except.ok y =>
      if h : x = y then isTrue (by rw [h])
      else isFalse (fun hc => h (by injection hc))

/-- Model of a JavaScript function value passed as the fifth argument
`transformerOrClass`.  A function value carries the two reflective facts
that `isClassConstructor` inspects (`value.prototype !== undefined` and
`value.prototype.constructor === value`), what invoking it on a single
item does (`call`, the behaviour used in the mapper branch, which may
throw), and what the external projection mechanism does with it per item
when it is used as a class target (`projectItem`, which may throw). -/
structure JsFunctionVal : Type where
  hasPrototype : Bool
  prototypeConstructorIsSelf : Bool
  call : Record → Except String Record
  projectItem : Record → Except String Record

/-- Embedding of the private static helper `isClassConstructor`
(lines 122-130 of the source):
`typeof value === 'function' && value.prototype !== undefined &&
value.prototype.constructor === value`.  The `typeof` conjunct is true by
construction, since `JsFunctionVal` only models function values. -/
def isClassConstructor (value : JsFunctionVal) : Bool :=
  value.hasPrototype && value.prototypeConstructorIsSelf

/-- Modelled from the spec: the projection step of the external
serialization facility for a single record.  Given the declarative
field-exposure descriptor of a class (the list of field names marked
exposed) it returns a new record containing only explicitly exposed
fields, discarding all others; exposed fields absent from the input stay
absent (`exposeUnsetFields: false`). -/
def projectRecord (exposed : List String) (r : Record) : Record :=
  List.filter (fun kv => decide (kv.1 ∈ exposed)) r

/-- JavaScript `Array.prototype.map` with a callback that may throw: items
are converted left to right and the first thrown error aborts the whole
map, propagating unchanged; no partial list is produced. -/
def mapWithThrow (f : Record → Except String Record) : List Record → Except String (List Record)
  | [] => Except.ok []
  | x :: xs =>
    match f x with
    | Except.error e => Except.error e
    | Except.ok y =>
      match mapWithThrow f xs with
      | Except.error e => Except.error e
      | Except.ok ys => Except.ok (y :: ys)

/-- Modelled from the spec: the external `class-transformer` call
`plainToInstance(cls, data, { excludeExtraneousValues: true,
exposeUnsetFields: false })` on an array converts each record
independently, in order, via the class target's per-item projection; an
error raised while converting an individual item propagates unchanged. -/
def plainToInstance (cls : JsFunctionVal) (data : List Record) : Except String (List Record) :=
  mapWithThrow cls.projectItem data

/-- JavaScript `||` on an integer left operand: `0` is the only falsy
integer, so `a || d` is `d` when `a = 0` and `a` otherwise. -/
def jsOr (a d : Int) : Int :=
  if a = 0 then d else a

/-- JavaScript `Math.floor(a / b)` on integer operands: floor division. -/
def jsFloorDiv (a b : Int) : Int :=
  Int.fdiv a b

/-- JavaScript `Math.ceil(a / b)` on integer operands: ceiling division,
expressed through floor division of the negation. -/
def jsCeilDiv (a b : Int) : Int :=
  -(Int.fdiv (-a) b)

/-- Transform-mode dispatch of `toPaginationResponseDto`
(lines 86-106 of the source): no argument (JavaScript falsy check
`!transformerOrClass`) passes the raw data through; a value classified by
`isClassConstructor` as a class goes through `plainToInstance`; any other
function value is applied to every item via `data.map`.  Errors thrown by
caller-supplied code or the projection mechanism propagate unchanged,
tagged as transform failures. -/
def transformStep (transformerOrClass : Option JsFunctionVal) (data : List Record) :
    Except PgError (List Record) :=
  match transformerOrClass with
  | none => Except.ok data
  | some value =>
    if isClassConstructor value then
      Except.mapError PgError.transformFailure (plainToInstance value data)
    else
      Except.mapError PgError.transformFailure (mapWithThrow value.call data)

/-- Embedding of `PaginationTransformer.toPaginationResponseDto`
(lines 61-117 of the source): validate `take`, `skip`, `totalItems` in
that order, throwing on the first violation; compute
`currentPage = Math.floor(skip / take) + 1` and
`totalPages = Math.ceil(totalItems / take) || 1`; run the transform-mode
dispatch on `data`; and assemble the envelope. -/
def toPaginationResponseDto (data : List Record) (totalItems skip take : Int)
    (transformerOrClass : Option JsFunctionVal) :
    Except PgError (PaginationResponseDto Record) :=
  if take ≤ 0 then
    Except.error (PgError.invalidArgument "Take must be greater than 0")
  else if skip < 0 then
    Except.error (PgError.invalidArgument "Skip must be non-negative")
  else if totalItems < 0 then
    Except.error (PgError.invalidArgument "Total items must be non-negative")
  else
    let currentPage : Int := jsFloorDiv skip take + 1
    let totalPages : Int := jsOr (jsCeilDiv totalItems take) 1
    match transformStep transformerOrClass data with
    | Except.error e => Except.error e
    | Except.ok transformedData =>
      Except.ok
        { data := transformedData
          totalItems := totalItems
          totalPages := totalPages
          currentPage := currentPage
          itemsPerPage := take
          hasNextPage := decide (currentPage < totalPages)
          hasPreviousPage := decide (currentPage > 1) }

/-- A JavaScript arrow function used as a per-item mapper: arrow functions
have no `prototype` property, so `value.prototype !== undefined` fails. -/
def mkArrow (f : Record → Except String Record) : JsFunctionVal :=
  { hasPrototype := false
    prototypeConstructorIsSelf := false
    call := f
    projectItem := fun _ => Except.ok [] }

/-- A JavaScript function declared with the `function` keyword, used as a
per-item mapper: such a function has a `prototype` object whose
`constructor` property is the function itself.  Used as a class target it
carries no field-exposure metadata, so with
`excludeExtraneousValues: true` the projection keeps no fields. -/
def mkFnDecl (f : Record → Except String Record) : JsFunctionVal :=
  { hasPrototype := true
    prototypeConstructorIsSelf := true
    call := f
    projectItem := fun _ => Except.ok [] }

/-- A JavaScript class with the given exposed-field descriptor: a class
has a `prototype` whose `constructor` is the class itself; invoking it
without `new` throws; the projection mechanism converts each record by
keeping exactly the exposed fields. -/
def mkClass (exposed : List String) : JsFunctionVal :=
  { hasPrototype := true
    prototypeConstructorIsSelf := true
    call := fun _ => Except.error "TypeError: Class constructor cannot be invoked without new"
    projectItem := fun r => Except.ok (projectRecord exposed r) }

/-- A successful call implies the arguments passed validation, and
characterizes every field of the returned envelope. -/
theorem toPag_ok_elim (data : List Record) (totalItems skip take : Int)
    (tr : Option JsFunctionVal) (r : PaginationResponseDto Record)
    (h : toPaginationResponseDto data totalItems skip take tr = Except.ok r) :
    ¬ take ≤ 0 ∧ ¬ skip < 0 ∧ ¬ totalItems < 0 ∧
    transformStep tr data = Except.ok r.data ∧
    r.totalItems = totalItems ∧
    r.totalPages = jsOr (jsCeilDiv totalItems take) 1 ∧
    r.currentPage = jsFloorDiv skip take + 1 ∧
    r.itemsPerPage = take ∧
    r.hasNextPage = decide (r.currentPage < r.totalPages) ∧
    r.hasPreviousPage = decide (r.currentPage > 1) := by
  by_cases hT : take ≤ 0
  · exfalso
    unfold toPaginationResponseDto at h
    rw [if_pos hT] at h
    exact Except.noConfusion h
  by_cases hS : skip < 0
  · exfalso
    unfold toPaginationResponseDto at h
    rw [if_neg hT, if_pos hS] at h
    exact Except.noConfusion h
  by_cases hI : totalItems < 0
  · exfalso
    unfold toPaginationResponseDto at h
    rw [if_neg hT, if_neg hS, if_pos hI] at h
    exact Except.noConfusion h
  unfold toPaginationResponseDto at h
  rw [if_neg hT, if_neg hS, if_neg hI] at h
  rcases hE : transformStep tr data with e | td <;> rw [hE] at h
  · exact Except.noConfusion h
  · injection h with h
    subst h
    exact ⟨hT, hS, hI, rfl, rfl, rfl, rfl, rfl, rfl, rfl⟩

/-- Floor-division characterization of `jsFloorDiv` for a positive
divisor. -/
theorem jsFloorDiv_spec (a b : Int) (hb : 0 < b) :
    b * jsFloorDiv a b ≤ a ∧ a < b * (jsFloorDiv a b + 1) := by
  unfold jsFloorDiv
  rw [Int.fdiv_eq_ediv a (le_of_lt hb)]
  have h1 := Int.ediv_add_emod a b
  have h2 := Int.emod_nonneg a (ne_of_gt hb)
  have h3 := Int.emod_lt_of_pos a hb
  constructor
  · linarith
  · have h4 : b * (a / b + 1) = b * (a / b) + b := by ring
    rw [h4]
    linarith

/-- Ceiling-division characterization of `jsCeilDiv` for a positive
divisor. -/
theorem jsCeilDiv_spec (a b : Int) (hb : 0 < b) :
    b * (jsCeilDiv a b - 1) < a ∧ a ≤ b * jsCeilDiv a b := by
  have h := jsFloorDiv_spec (-a) b hb
  unfold jsFloorDiv at h
  unfold jsCeilDiv
  constructor
  · nlinarith [h.2]
  · nlinarith [h.1]

/-- Value of `jsCeilDiv` at a zero dividend. -/
theorem jsCeilDiv_zero (b : Int) (hb : 0 < b) : jsCeilDiv 0 b = 0 := by
  have h := jsCeilDiv_spec 0 b hb
  nlinarith [h.1, h.2]

/-- Positivity of `jsCeilDiv` for a positive dividend. -/
theorem jsCeilDiv_pos (a b : Int) (hb : 0 < b) (ha : 0 < a) :
    1 ≤ jsCeilDiv a b := by
  have h := jsCeilDiv_spec a b hb
  nlinarith [h.2]

/-- C1: for every call with `take > 0`, `skip ≥ 0`, `totalItems ≥ 0` that
returns an envelope, `currentPage` equals `floor(skip / take) + 1`
(stated both as the floor-division expression and by the defining bounds
of the floor), and its value is independent of the length or contents of
`items` and of the transform argument. -/
theorem c1_currentPage_floor (data : List Record) (totalItems skip take : Int)
    (tr : Option JsFunctionVal) (r : PaginationResponseDto Record)
    (ht : 0 < take) (hs : 0 ≤ skip) (hti : 0 ≤ totalItems)
    (h : toPaginationResponseDto data totalItems skip take tr = Except.ok r) :
    r.currentPage = jsFloorDiv skip take + 1 ∧
    take * (r.currentPage - 1) ≤ skip ∧ skip < take * r.currentPage ∧
    ∀ (data' : List Record) (tr' : Option JsFunctionVal)
      (r' : PaginationResponseDto Record),
      toPaginationResponseDto data' totalItems skip take tr' = Except.ok r' →
      r'.currentPage = r.currentPage := by
  obtain ⟨-, -, -, -, -, -, hcp, -, -, -⟩ := toPag_ok_elim _ _ _ _ _ _ h
  have hfd := jsFloorDiv_spec skip take ht
  refine ⟨hcp, ?_, ?_, ?_⟩
  · rw [hcp]
    simpa using hfd.1
  · rw [hcp]
    exact hfd.2
  · intro data' tr' r' h'
    obtain ⟨-, -, -, -, -, -, hcp', -, -, -⟩ := toPag_ok_elim _ _ _ _ _ _ h'
    rw [hcp', hcp]

def sampleEnv1 : PaginationResponseDto Record :=
  { data := [], totalItems := 50, totalPages := 5, currentPage := 3,
    itemsPerPage := 10, hasNextPage := true, hasPreviousPage := true }

/-- Witness for C1 at the concrete call `paginate([], 50, 20, 10)`. -/
theorem c1_currentPage_floor_witness :
    sampleEnv1.currentPage = jsFloorDiv 20 10 + 1 :=
  (c1_currentPage_floor [] 50 20 10 none sampleEnv1 (by decide) (by decide)
    (by decide) (by decide)).1

/-- C2: for every call with valid arguments that returns an envelope,
`totalPages` is `1` when `totalItems = 0` and the ceiling of
`totalItems / take` otherwise (stated by the defining bounds of the
ceiling), hence `totalPages ≥ 1` always. -/
theorem c2_totalPages_ceil (data : List Record) (totalItems skip take : Int)
    (tr : Option JsFunctionVal) (r : PaginationResponseDto Record)
    (ht : 0 < take) (hs : 0 ≤ skip) (hti : 0 ≤ totalItems)
    (h : toPaginationResponseDto data totalItems skip take tr = Except.ok r) :
    (totalItems = 0 → r.totalPages = 1) ∧
    (0 < totalItems →
      totalItems ≤ r.totalPages * take ∧ (r.totalPages - 1) * take < totalItems) ∧
    1 ≤ r.totalPages := by
  obtain ⟨-, -, -, -, -, htp, -, -, -, -⟩ := toPag_ok_elim _ _ _ _ _ _ h
  by_cases h0 : totalItems = 0
  · subst h0
    rw [htp, jsCeilDiv_zero take ht]
    refine ⟨fun _ => rfl, fun hlt => absurd hlt (by simp), by simp [jsOr]⟩
  · have hpos : 0 < totalItems := lt_of_le_of_ne hti (Ne.symm h0)
    have h1 := jsCeilDiv_pos totalItems take ht hpos
    have hcs := jsCeilDiv_spec totalItems take ht
    have hne : jsCeilDiv totalItems take ≠ 0 := by omega
    rw [htp]
    unfold jsOr
    rw [if_neg hne]
    refine ⟨fun hz => absurd hz h0, fun _ => ⟨?_, ?_⟩, h1⟩
    · linarith [hcs.2, mul_comm take (jsCeilDiv totalItems take)]
    · linarith [hcs.1, mul_comm take (jsCeilDiv totalItems take - 1)]

def sampleEnv2 : PaginationResponseDto Record :=
  { data := [], totalItems := 47, totalPages := 5, currentPage := 5,
    itemsPerPage := 10, hasNextPage := false, hasPreviousPage := true }

/-- Witness for C2 at the concrete call `paginate([], 47, 40, 10)`. -/
theorem c2_totalPages_ceil_witness : 1 ≤ sampleEnv2.totalPages :=
  (c2_totalPages_ceil [] 47 40 10 none sampleEnv2 (by decide) (by decide)
    (by decide) (by decide)).2.2

/-- C3: for every call with valid arguments that returns an envelope,
`itemsPerPage` equals `take` regardless of the number of input items, and
the two page flags are `hasNextPage = (currentPage < totalPages)` and
`hasPreviousPage = (currentPage > 1)`. -/
theorem c3_envelope_flags (data : List Record) (totalItems skip take : Int)
    (tr : Option JsFunctionVal) (r : PaginationResponseDto Record)
    (ht : 0 < take) (hs : 0 ≤ skip) (hti : 0 ≤ totalItems)
    (h : toPaginationResponseDto data totalItems skip take tr = Except.ok r) :
    r.itemsPerPage = take ∧
    (r.hasNextPage = true ↔ r.currentPage < r.totalPages) ∧
    (r.hasPreviousPage = true ↔ 1 < r.currentPage) := by
  obtain ⟨-, -, -, -, -, -, -, hipp, hnp, hpp⟩ := toPag_ok_elim _ _ _ _ _ _ h
  refine ⟨hipp, ?_, ?_⟩
  · rw [hnp]
    exact decide_eq_true_iff
  · rw [hpp]
    exact decide_eq_true_iff

/-- Witness for C3 at the concrete call `paginate([], 47, 40, 10)`. -/
theorem c3_envelope_flags_witness : sampleEnv2.itemsPerPage = 10 :=
  (c3_envelope_flags [] 47 40 10 none sampleEnv2 (by decide) (by decide)
    (by decide) (by decide)).1

/-- Any error produced by the transform-mode dispatch is a transform
failure, never a validation error. -/
theorem transformStep_error (tr : Option JsFunctionVal) (data : List Record)
    (e : PgError) (h : transformStep tr data = Except.error e) :
    ∃ m, e = PgError.transformFailure m := by
  cases tr with
  | none =>
    simp only [transformStep] at h
    exact Except.noConfusion h
  | some v =>
    simp only [transformStep] at h
    by_cases hc : isClassConstructor v
    · rw [if_pos hc] at h
      cases hX : plainToInstance v data with
      | error m =>
        rw [hX] at h
        simp only [Except.mapError] at h
        injection h with h
        exact ⟨m, h.symm⟩
      | ok l =>
        rw [hX] at h
        simp only [Except.mapError] at h
        exact Except.noConfusion h
    · rw [if_neg hc] at h
      cases hX : mapWithThrow v.call data with
      | error m =>
        rw [hX] at h
        simp only [Except.mapError] at h
        injection h with h
        exact ⟨m, h.symm⟩
      | ok l =>
        rw [hX] at h
        simp only [Except.mapError] at h
        exact Except.noConfusion h

/-- Tag-stripping inversion for a successful `Except.mapError`. -/
theorem mapError_ok {x : Except String (List Record)} {l : List Record}
    (h : Except.mapError PgError.transformFailure x = Except.ok l) :
    x = Except.ok l := by
  cases x with
  | error m => simp only [Except.mapError] at h; exact Except.noConfusion h
  | ok a => simp only [Except.mapError] at h; injection h with h; rw [h]

/-- C4 (amended): an InvalidArgument error is raised if and only if
`take ≤ 0`, `skip < 0` or `totalItems < 0`; the checks run in that order
before any transformation work, each producing the exact message of the
source: "Take must be greater than 0", "Skip must be non-negative",
"Total items must be non-negative". -/
theorem c4_invalid_argument (data : List Record) (totalItems skip take : Int)
    (tr : Option JsFunctionVal) :
    ((∃ msg, toPaginationResponseDto data totalItems skip take tr =
        Except.error (PgError.invalidArgument msg)) ↔
      (take ≤ 0 ∨ skip < 0 ∨ totalItems < 0)) ∧
    (take ≤ 0 → toPaginationResponseDto data totalItems skip take tr =
      Except.error (PgError.invalidArgument "Take must be greater than 0")) ∧
    (¬ take ≤ 0 → skip < 0 →
      toPaginationResponseDto data totalItems skip take tr =
        Except.error (PgError.invalidArgument "Skip must be non-negative")) ∧
    (¬ take ≤ 0 → ¬ skip < 0 → totalItems < 0 →
      toPaginationResponseDto data totalItems skip take tr =
        Except.error (PgError.invalidArgument "Total items must be non-negative")) := by
  have hTake : take ≤ 0 → toPaginationResponseDto data totalItems skip take tr =
      Except.error (PgError.invalidArgument "Take must be greater than 0") := by
    intro hT
    unfold toPaginationResponseDto
    rw [if_pos hT]
  have hSkip : ¬ take ≤ 0 → skip < 0 →
      toPaginationResponseDto data totalItems skip take tr =
        Except.error (PgError.invalidArgument "Skip must be non-negative") := by
    intro hT hS
    unfold toPaginationResponseDto
    rw [if_neg hT, if_pos hS]
  have hTotal : ¬ take ≤ 0 → ¬ skip < 0 → totalItems < 0 →
      toPaginationResponseDto data totalItems skip take tr =
        Except.error (PgError.invalidArgument "Total items must be non-negative") := by
    intro hT hS hI
    unfold toPaginationResponseDto
    rw [if_neg hT, if_neg hS, if_pos hI]
  refine ⟨⟨?_, ?_⟩, hTake, hSkip, hTotal⟩
  · rintro ⟨msg, hmsg⟩
    by_contra hvalid
    push_neg at hvalid
    obtain ⟨hT, hS, hI⟩ := hvalid
    have hT' : ¬ take ≤ 0 := not_le.mpr hT
    have hS' : ¬ skip < 0 := not_lt.mpr hS
    have hI' : ¬ totalItems < 0 := not_lt.mpr hI
    unfold toPaginationResponseDto at hmsg
    rw [if_neg hT', if_neg hS', if_neg hI'] at hmsg
    rcases hE : transformStep tr data with e | td <;> rw [hE] at hmsg
    · injection hmsg with hmsg
      obtain ⟨m, hm⟩ := transformStep_error tr data e hE
      rw [hm] at hmsg
      exact PgError.noConfusion hmsg
    · exact Except.noConfusion hmsg
  · intro hbad
    by_cases hT : take ≤ 0
    · exact ⟨"Take must be greater than 0", hTake hT⟩
    by_cases hS : skip < 0
    · exact ⟨"Skip must be non-negative", hSkip hT hS⟩
    have hI : totalItems < 0 := by tauto
    exact ⟨"Total items must be non-negative", hTotal hT hS hI⟩

/-- Witness for C4 (amended) at the concrete call `paginate([], 10, 0, 0)`. -/
theorem c4_invalid_argument_witness :
    toPaginationResponseDto [] 10 0 0 none =
      Except.error (PgError.invalidArgument "Take must be greater than 0") :=
  (c4_invalid_argument [] 10 0 0 none).2.1 (by decide)

/-- Counterexample for C4 as stated: at the spec's own scenarios the code
throws messages capitalized differently from the claim's literal strings
("Take must be greater than 0", "Skip must be non-negative",
"Total items must be non-negative" instead of the claimed
"take must be greater than 0", "skip must be non-negative",
"totalItems must be non-negative"). -/
theorem c4_counterexample :
    toPaginationResponseDto [] 10 0 0 none =
      Except.error (PgError.invalidArgument "Take must be greater than 0") ∧
    toPaginationResponseDto [] 10 0 0 none ≠
      Except.error (PgError.invalidArgument "take must be greater than 0") ∧
    toPaginationResponseDto [] 10 (-1) 10 none ≠
      Except.error (PgError.invalidArgument "skip must be non-negative") ∧
    toPaginationResponseDto [] (-5) 0 10 none ≠
      Except.error (PgError.invalidArgument "totalItems must be non-negative") := by
  refine ⟨by decide, by decide, by decide, by decide⟩

/-- A successful throwing map preserves the length of the list. -/
theorem mapWithThrow_length (f : Record → Except String Record) :
    ∀ (l res : List Record), mapWithThrow f l = Except.ok res →
      res.length = l.length := by
  intro l
  induction l with
  | nil =>
    intro res h
    unfold mapWithThrow at h
    injection h with h
    rw [← h]
  | cons x xs ih =>
    intro res h
    unfold mapWithThrow at h
    cases hfx : f x with
    | error e =>
      rw [hfx] at h
      exact Except.noConfusion h
    | ok y =>
      rw [hfx] at h
      cases hrest : mapWithThrow f xs with
      | error e =>
        rw [hrest] at h
        exact Except.noConfusion h
      | ok ys =>
        rw [hrest] at h
        injection h with h
        rw [← h]
        simp [ih ys hrest]

/-- A throwing map whose callback succeeds everywhere computes exactly the
pointwise map, in input order. -/
theorem mapWithThrow_map (f : Record → Except String Record)
    (g : Record → Record) :
    ∀ l : List Record, (∀ x ∈ l, f x = Except.ok (g x)) →
      mapWithThrow f l = Except.ok (List.map g l) := by
  intro l
  induction l with
  | nil => intro _; rfl
  | cons x xs ih =>
    intro hall
    show mapWithThrow f (x :: xs) = Except.ok (List.map g (x :: xs))
    simp only [mapWithThrow]
    rw [hall x (List.mem_cons_self x xs),
      ih (fun y hy => hall y (List.mem_cons_of_mem x hy))]
    rfl

/-- A throwing map fails with the first item error, whatever follows. -/
theorem mapWithThrow_append_error (f : Record → Except String Record)
    (e : String) :
    ∀ (pre : List Record) (x : Record) (post : List Record),
      (∀ y ∈ pre, ∃ z, f y = Except.ok z) → f x = Except.error e →
      mapWithThrow f (pre ++ x :: post) = Except.error e := by
  intro pre
  induction pre with
  | nil =>
    intro x post _ hx
    rw [List.nil_append]
    simp only [mapWithThrow]
    rw [hx]
  | cons p ps ih =>
    intro x post hall hx
    obtain ⟨z, hz⟩ := hall p (List.mem_cons_self p ps)
    have hrest := ih x post (fun y hy => hall y (List.mem_cons_of_mem p hy)) hx
    show mapWithThrow f (p :: (ps ++ x :: post)) = Except.error e
    simp only [mapWithThrow]
    rw [hz, hrest]

/-- C5: for every call with valid arguments that returns an envelope, the
returned data is the input unchanged in identity mode, the pointwise
in-order map of the input in mapper mode, the pointwise in-order
projection of the input in class mode (whenever every item converts
without a transform failure), and has the same length as the input in
every transform mode. -/
theorem c5_data_modes (data : List Record) (totalItems skip take : Int)
    (ht : 0 < take) (hs : 0 ≤ skip) (hti : 0 ≤ totalItems) :
    (∀ r : PaginationResponseDto Record,
      toPaginationResponseDto data totalItems skip take none = Except.ok r →
      r.data = data) ∧
    (∀ (g : Record → Except String Record) (g0 : Record → Record)
        (r : PaginationResponseDto Record),
      (∀ x ∈ data, g x = Except.ok (g0 x)) →
      toPaginationResponseDto data totalItems skip take (some (mkArrow g)) =
        Except.ok r →
      r.data = List.map g0 data) ∧
    (∀ (v : JsFunctionVal) (p0 : Record → Record)
        (r : PaginationResponseDto Record),
      isClassConstructor v = true →
      (∀ x ∈ data, v.projectItem x = Except.ok (p0 x)) →
      toPaginationResponseDto data totalItems skip take (some v) =
        Except.ok r →
      r.data = List.map p0 data) ∧
    (∀ (tr : Option JsFunctionVal) (r : PaginationResponseDto Record),
      toPaginationResponseDto data totalItems skip take tr = Except.ok r →
      r.data.length = data.length) := by
  refine ⟨?_, ?_, ?_, ?_⟩
  · intro r h
    obtain ⟨-, -, -, hts, -, -, -, -, -, -⟩ := toPag_ok_elim _ _ _ _ _ _ h
    simp only [transformStep] at hts
    injection hts with hts
    exact hts.symm
  · intro g g0 r hall h
    obtain ⟨-, -, -, hts, -, -, -, -, -, -⟩ := toPag_ok_elim _ _ _ _ _ _ h
    simp only [transformStep] at hts
    rw [if_neg (by simp [isClassConstructor, mkArrow])] at hts
    have hmap := mapWithThrow_map g g0 data hall
    have : mapWithThrow (mkArrow g).call data = Except.ok r.data := mapError_ok hts
    rw [show (mkArrow g).call = g from rfl, hmap] at this
    injection this with this
    rw [← this]
  · intro v p0 r hc hall h
    obtain ⟨-, -, -, hts, -, -, -, -, -, -⟩ := toPag_ok_elim _ _ _ _ _ _ h
    simp only [transformStep] at hts
    rw [if_pos hc] at hts
    have hmap := mapWithThrow_map v.projectItem p0 data hall
    have : plainToInstance v data = Except.ok r.data := mapError_ok hts
    unfold plainToInstance at this
    rw [hmap] at this
    injection this with this
    rw [← this]
  · intro tr r h
    obtain ⟨-, -, -, hts, -, -, -, -, -, -⟩ := toPag_ok_elim _ _ _ _ _ _ h
    cases tr with
    | none =>
      simp only [transformStep] at hts
      injection hts with hts
      rw [hts]
    | some v =>
      simp only [transformStep] at hts
      by_cases hc : isClassConstructor v
      · rw [if_pos hc] at hts
        exact mapWithThrow_length v.projectItem data r.data (mapError_ok hts)
      · rw [if_neg hc] at hts
        exact mapWithThrow_length v.call data r.data (mapError_ok hts)

def sampleRecJohn : Record :=
  [("id", JsValue.num 1), ("name", JsValue.str "John"), ("password", JsValue.str "x")]

def sampleEnvIdentity : PaginationResponseDto Record :=
  { data := [sampleRecJohn], totalItems := 1, totalPages := 1, currentPage := 1,
    itemsPerPage := 10, hasNextPage := false, hasPreviousPage := false }

/-- Witness for C5 at the concrete call `paginate([john], 1, 0, 10)`. -/
theorem c5_data_modes_witness : sampleEnvIdentity.data = [sampleRecJohn] :=
  (c5_data_modes [sampleRecJohn] 1 0 10 (by decide) (by decide) (by decide)).1
    sampleEnvIdentity (by decide)

/-- C6: in class-based (projection) transform mode, every field key
present in any output record is explicitly marked exposed in the
projection descriptor; hence every non-exposed field of an input item —
for instance a password — is absent from the corresponding output record,
not merely empty or null. -/
theorem c6_projection_whitelist (exposed : List String) (data : List Record)
    (totalItems skip take : Int) (r : PaginationResponseDto Record)
    (ht : 0 < take) (hs : 0 ≤ skip) (hti : 0 ≤ totalItems)
    (h : toPaginationResponseDto data totalItems skip take
        (some (mkClass exposed)) = Except.ok r) :
    ∀ rec ∈ r.data, ∀ (k : String) (v : JsValue), (k, v) ∈ rec → k ∈ exposed := by
  obtain ⟨-, -, -, hts, -, -, -, -, -, -⟩ := toPag_ok_elim _ _ _ _ _ _ h
  simp only [transformStep] at hts
  rw [if_pos (show isClassConstructor (mkClass exposed) = true from rfl)] at hts
  have hok : plainToInstance (mkClass exposed) data = Except.ok r.data :=
    mapError_ok hts
  unfold plainToInstance at hok
  rw [mapWithThrow_map (mkClass exposed).projectItem (projectRecord exposed) data
    (fun x _ => rfl)] at hok
  injection hok with hok
  intro rec hrec k v hkv
  rw [← hok] at hrec
  obtain ⟨x, -, hx⟩ := List.mem_map.mp hrec
  rw [← hx] at hkv
  unfold projectRecord at hkv
  have := (List.mem_filter.mp hkv).2
  exact of_decide_eq_true this

def sampleEnvProjected : PaginationResponseDto Record :=
  { data := [[("id", JsValue.num 1), ("name", JsValue.str "John")]],
    totalItems := 1, totalPages := 1, currentPage := 1,
    itemsPerPage := 10, hasNextPage := false, hasPreviousPage := false }

/-- Witness for C6 at the spec's concrete scenario: one record with
`id`, `name`, `password` projected through a class exposing only `id` and
`name`. -/
theorem c6_projection_whitelist_witness : ("id" : String) ∈ ["id", "name"] :=
  c6_projection_whitelist ["id", "name"] [sampleRecJohn] 1 0 10
    sampleEnvProjected (by decide) (by decide) (by decide) (by decide)
    [("id", JsValue.num 1), ("name", JsValue.str "John")] (by decide)
    "id" (JsValue.num 1) (by decide)

/-- C7: `currentPage` is never clamped to `totalPages`: whenever `skip`
lies at or past the end of the last page window the envelope reports
`currentPage > totalPages`; concretely, `totalItems = 50, skip = 100,
take = 10` yields `currentPage = 11`, `totalPages = 5`,
`hasNextPage = false`, `hasPreviousPage = true`. -/
theorem c7_no_clamping (data : List Record) (totalItems skip take : Int)
    (tr : Option JsFunctionVal) (r : PaginationResponseDto Record)
    (ht : 0 < take) (hs : 0 ≤ skip) (hti : 0 ≤ totalItems)
    (h : toPaginationResponseDto data totalItems skip take tr = Except.ok r) :
    (r.totalPages * take ≤ skip → r.totalPages < r.currentPage) ∧
    toPaginationResponseDto [] 50 100 10 none =
      Except.ok
        { data := [], totalItems := 50, totalPages := 5, currentPage := 11,
          itemsPerPage := 10, hasNextPage := false, hasPreviousPage := true } := by
  obtain ⟨-, -, -, -, -, -, hcp, -, -, -⟩ := toPag_ok_elim _ _ _ _ _ _ h
  refine ⟨?_, by decide⟩
  intro hover
  have hfd := jsFloorDiv_spec skip take ht
  have h1 : take * r.totalPages < take * (jsFloorDiv skip take + 1) := by
    calc take * r.totalPages = r.totalPages * take := mul_comm _ _
    _ ≤ skip := hover
    _ < take * (jsFloorDiv skip take + 1) := hfd.2
  have h2 : r.totalPages < jsFloorDiv skip take + 1 :=
    lt_of_mul_lt_mul_left h1 (le_of_lt ht)
  rw [hcp]
  exact h2

def sampleEnvOvershoot : PaginationResponseDto Record :=
  { data := [], totalItems := 50, totalPages := 5, currentPage := 11,
    itemsPerPage := 10, hasNextPage := false, hasPreviousPage := true }

/-- Witness for C7 at the spec's overshoot scenario
`paginate([], 50, 100, 10)`. -/
theorem c7_no_clamping_witness :
    sampleEnvOvershoot.totalPages < sampleEnvOvershoot.currentPage :=
  (c7_no_clamping [] 50 100 10 none sampleEnvOvershoot (by decide) (by decide)
    (by decide) (by decide)).1 (by decide)

/-- A transform failure in the dispatch step fails the whole call with the
same tagged error. -/
theorem toPag_transform_error (data : List Record) (totalItems skip take : Int)
    (tr : Option JsFunctionVal) (e : String)
    (hT : ¬ take ≤ 0) (hS : ¬ skip < 0) (hI : ¬ totalItems < 0)
    (hE : transformStep tr data = Except.error (PgError.transformFailure e)) :
    toPaginationResponseDto data totalItems skip take tr =
      Except.error (PgError.transformFailure e) := by
  unfold toPaginationResponseDto
  rw [if_neg hT, if_neg hS, if_neg hI, hE]

/-- C8: if the caller-supplied mapper (in mapper mode) or the projection
mechanism (in class mode) raises an error while converting any single
item, the entire call fails with exactly that error, not a partial
envelope: items before the failing one may have converted successfully,
yet nothing of them is returned. -/
theorem c8_transform_error_propagation (v : JsFunctionVal)
    (pre post : List Record) (x : Record) (e : String)
    (totalItems skip take : Int)
    (ht : 0 < take) (hs : 0 ≤ skip) (hti : 0 ≤ totalItems) :
    (isClassConstructor v = false →
      (∀ y ∈ pre, ∃ z, v.call y = Except.ok z) →
      v.call x = Except.error e →
      toPaginationResponseDto (pre ++ x :: post) totalItems skip take (some v) =
        Except.error (PgError.transformFailure e)) ∧
    (isClassConstructor v = true →
      (∀ y ∈ pre, ∃ z, v.projectItem y = Except.ok z) →
      v.projectItem x = Except.error e →
      toPaginationResponseDto (pre ++ x :: post) totalItems skip take (some v) =
        Except.error (PgError.transformFailure e)) := by
  have hT : ¬ take ≤ 0 := not_le.mpr ht
  have hS : ¬ skip < 0 := not_lt.mpr hs
  have hI : ¬ totalItems < 0 := not_lt.mpr hti
  constructor
  · intro hc hpre hx
    apply toPag_transform_error _ _ _ _ _ _ hT hS hI
    simp only [transformStep]
    rw [if_neg (by simp [hc]),
      mapWithThrow_append_error v.call e pre x post hpre hx]
    rfl
  · intro hc hpre hx
    apply toPag_transform_error _ _ _ _ _ _ hT hS hI
    simp only [transformStep]
    rw [if_pos hc]
    unfold plainToInstance
    rw [mapWithThrow_append_error v.projectItem e pre x post hpre hx]
    rfl

def boomMapper : JsFunctionVal := mkArrow (fun _ => Except.error "boom")

/-- Witness for C8: a single-item page whose arrow mapper throws fails the
whole call with that error. -/
theorem c8_transform_error_propagation_witness :
    toPaginationResponseDto [sampleRecJohn] 1 0 10 (some boomMapper) =
      Except.error (PgError.transformFailure "boom") :=
  (c8_transform_error_propagation boomMapper [] [] sampleRecJohn "boom" 1 0 10
    (by decide) (by decide) (by decide)).1 rfl (by simp) rfl

/-- C9: the paginator is a pure, deterministic function: two calls with
componentwise identical arguments yield structurally identical results. -/
theorem c9_deterministic (data data' : List Record)
    (totalItems totalItems' skip skip' take take' : Int)
    (tr tr' : Option JsFunctionVal)
    (hdata : data = data') (hti : totalItems = totalItems')
    (hs : skip = skip') (ht : take = take') (htr : tr = tr') :
    toPaginationResponseDto data totalItems skip take tr =
      toPaginationResponseDto data' totalItems' skip' take' tr' := by
  subst hdata hti hs ht htr
  rfl

/-- Witness for C9: two identical concrete calls agree. -/
theorem c9_deterministic_witness :
    toPaginationResponseDto [] 0 0 1 none = toPaginationResponseDto [] 0 0 1 none :=
  c9_deterministic [] [] 0 0 0 0 1 1 none none rfl rfl rfl rfl rfl

/-- C10: the dispatch test classifies as a class constructor every
function value with a prototype whose constructor is itself — which
includes every ordinary function declared with the `function` keyword,
not only classes — and classifies arrow functions as mappers; hence a
per-item mapper written as a function-keyword function is routed through
`plainToInstance` (its result does not depend on the mapper's behaviour
at all), while the same mapper written as an arrow function is invoked on
each item. -/
theorem c10_dispatch_rule (g g' : Record → Except String Record)
    (exposed : List String) (data : List Record) (totalItems skip take : Int) :
    isClassConstructor (mkFnDecl g) = true ∧
    isClassConstructor (mkArrow g) = false ∧
    isClassConstructor (mkClass exposed) = true ∧
    toPaginationResponseDto data totalItems skip take (some (mkFnDecl g)) =
      toPaginationResponseDto data totalItems skip take (some (mkFnDecl g')) ∧
    toPaginationResponseDto [sampleRecJohn] 1 0 10 (some (mkFnDecl Except.ok)) =
      Except.ok
        { data := [[]], totalItems := 1, totalPages := 1, currentPage := 1,
          itemsPerPage := 10, hasNextPage := false, hasPreviousPage := false } ∧
    toPaginationResponseDto [sampleRecJohn] 1 0 10 (some (mkArrow Except.ok)) =
      Except.ok
        { data := [sampleRecJohn], totalItems := 1, totalPages := 1,
          currentPage := 1, itemsPerPage := 10, hasNextPage := false,
          hasPreviousPage := false } := by
  have hts : transformStep (some (mkFnDecl g)) data =
      transformStep (some (mkFnDecl g')) data := rfl
  refine ⟨rfl, rfl, rfl, ?_, by decide, by decide⟩
  unfold toPaginationResponseDto
  rw [hts]
